import Mathlib

/-!
Shallow embedding of the priority task-queue core of the repository
(`queue_infra/redis_queue.py`, `schemas/task.py`, `worker.py`,
`core/config.py`) and proofs about the claims on it.

Modelling conventions:
* Python exceptions are `Except PyErr` / an explicit `Option PyErr` slot.
* The flat record appended to a sub-log holds the Python values that
  `enqueue_task` puts into its `task_data` dict (`PyVal`): the broker
  stringifies an int on the wire and `int(...)` in the deserializer
  recovers it, and `json.dumps`/`json.loads` round-trip a string-keyed
  dict; both library identities are reflected by keeping the value.
* Calling a Python function with a keyword argument its `def` does not
  declare raises `TypeError` before the body runs; `call_enqueue_task`
  models the call sites that pass extra keywords by checking them
  against the parameter list of `enqueue_task` (redis_queue.py:46).
* The stray `pdb.set_trace()` inside `_handle_message`
  (redis_queue.py:167-169) is interactive instrumentation that does not
  change queue state; it is modelled as a no-op.
-/

/-- schemas/task.py: TaskPriorityEnum (a str-valued enum). -/
inductive TaskPriorityEnum
  | high
  | normal
  | low
deriving DecidableEq, Repr

/-- The string value of a TaskPriorityEnum member (it is a str-Enum). -/
def TaskPriorityEnum.val : TaskPriorityEnum → String
  | .high => "high"
  | .normal => "normal"
  | .low => "low"

/-- Python exceptions that the modelled code can raise. -/
inductive PyErr
  | typeError
  | keyError
  | valueError
  | attributeError
  | validationError
deriving DecidableEq, Repr

/-- A Python value stored in the flat `task_data` record: a string, an
int, or the JSON text produced by `json.dumps` on a string-keyed dict
(represented by the dict it encodes, since `json.loads` inverts it). -/
inductive PyVal
  | s (v : String)
  | i (v : Int)
  | j (v : List (String × String))
deriving DecidableEq, Repr

/-- The flat string-keyed record format of a sub-log entry. -/
def Record := List (String × PyVal)
deriving DecidableEq, Repr

/-- schemas/task.py:41-51: QueuedTask. `user_context` is opaque to the
queue and modelled as a string-keyed string map. -/
structure QueuedTask where
  task_id : Int
  user_id : Int
  task_type : String
  priority : String
  input_text : String
  user_context : List (String × String)
  accessibility_mode : Bool := false
  webhook_url : Option String := none
  retry_count : Int := 0
  max_retries : Int := 3
deriving DecidableEq, Repr

/-- Python `x or d` for an optional string `x`: `None` and `""` are
falsy, so both fall through to the default. -/
def pyOr (x : Option String) (d : String) : String :=
  match x with
  | none => d
  | some s => if s = "" then d else s

/-- Python `str` applied to a bool: `"True"` / `"False"`. -/
def pyStrBool (b : Bool) : String :=
  if b then "True" else "False"

/-- Python `int(...)` applied to a record value: an int passes through
(the wire round-trips `int(str(n)) = n`); a string is parsed, raising
`ValueError` when not numeric; JSON text raises `TypeError`. -/
def pyInt : PyVal → Except PyErr Int
  | .i n => .ok n
  | .s v =>
    match v.toInt? with
    | some n => .ok n
    | none => .error .valueError
  | .j _ => .error .typeError

/-- pydantic validation of a `str` field: only a string is accepted. -/
def pyAsStr : PyVal → Except PyErr String
  | .s v => .ok v
  | _ => .error .validationError

/-- `json.loads` applied to a record value: only JSON text decodes. -/
def pyJsonLoads : PyVal → Except PyErr (List (String × String))
  | .j v => .ok v
  | _ => .error .valueError

/-- Python `str.lower()` on one character (ASCII range, which is all
the serializer produces for this field). -/
def pyLowerChar (c : Char) : Char :=
  if 'A' ≤ c ∧ c ≤ 'Z' then Char.ofNat (c.toNat + 32) else c

/-- Python `str.lower()`. -/
def pyLower (s : String) : String :=
  String.mk (s.data.map pyLowerChar)

/-- `fields["accessibility_mode"].lower() == "true"`; `.lower()` on a
non-string raises `AttributeError`. -/
def pyLowerEqTrue : PyVal → Except PyErr Bool
  | .s v => .ok (pyLower v = "true")
  | _ => .error .attributeError

/-- Dict lookup `fields[k]` returning `None`-style absence. -/
def lookupField (fields : Record) (k : String) : Option PyVal :=
  List.lookup k fields

/-- Dict subscript `fields[k]`, raising `KeyError` when absent. -/
def getField (fields : Record) (k : String) : Except PyErr PyVal :=
  match lookupField fields k with
  | some v => .ok v
  | none => .error .keyError

/-- redis_queue.py:50-62: the `task_data` record that `enqueue_task`
builds from a task. `now` stands for `datetime.utcnow().isoformat()`,
the ISO-8601 timestamp taken at enqueue time. -/
def serialize_task (task : QueuedTask) (now : String) : Record :=
  [("task_id", .i task.task_id),
   ("user_id", .i task.user_id),
   ("task_type", .s task.task_type),
   ("priority", .s task.priority),
   ("input_text", .s task.input_text),
   ("user_context", .j task.user_context),
   ("accessibility_mode", .s (pyStrBool task.accessibility_mode)),
   ("webhook_url", .s (pyOr task.webhook_url "")),
   ("retry_count", .i task.retry_count),
   ("max_retries", .i task.max_retries),
   ("queued_at", .s now)]

/-- redis_queue.py:202-215: `TaskConsumer._deserialize_task`. `selfMax`
is the consumer's `self.max_retries`, the default used when the record
has no `max_retries` field. -/
def deserialize_task (selfMax : Int) (fields : Record) :
    Except PyErr QueuedTask := do
  let tid ← getField fields "task_id" >>= pyInt
  let uid ← getField fields "user_id" >>= pyInt
  let ttype ← getField fields "task_type" >>= pyAsStr
  let prio ← getField fields "priority" >>= pyAsStr
  let itext ← getField fields "input_text" >>= pyAsStr
  let uctx ← getField fields "user_context" >>= pyJsonLoads
  let amode ← getField fields "accessibility_mode" >>= pyLowerEqTrue
  let whk ← match lookupField fields "webhook_url" with
    | none => pure (none : Option String)
    | some (.s v) => pure (some v)
    | some _ => Except.error .validationError
  let rc ← match lookupField fields "retry_count" with
    | none => pure (0 : Int)
    | some v => pyInt v
  let mr ← match lookupField fields "max_retries" with
    | none => pure selfMax
    | some v => pyInt v
  return { task_id := tid, user_id := uid, task_type := ttype,
           priority := prio, input_text := itext, user_context := uctx,
           accessibility_mode := amode, webhook_url := whk,
           retry_count := rc, max_retries := mr }

deriving instance DecidableEq for Except

/-! ### Broker state (Redis streams with one consumer group) -/

/-- core/config.py:42-44 and redis_queue.py:18-22: the sub-log name for
each priority tier (`self.priority_queues`). -/
def priority_queues : TaskPriorityEnum → String
  | .high => "tasks:high"
  | .normal => "tasks:normal"
  | .low => "tasks:low"

/-- core/config.py:46: the shared consumer-group name. -/
def consumer_group : String := "ai_agent_workers"

/-- Task.priority is a plain string; `self.priority_queues[task.priority]`
succeeds because the str-enum keys compare equal to their values, and
raises `KeyError` for any other string. -/
def priorityQueueName (p : String) : Except PyErr String :=
  if p = (TaskPriorityEnum.high).val then .ok (priority_queues .high)
  else if p = (TaskPriorityEnum.normal).val then .ok (priority_queues .normal)
  else if p = (TaskPriorityEnum.low).val then .ok (priority_queues .low)
  else .error .keyError

/-- One stream (sub-log) with the state of the single consumer group on
it: `entries` in append order, `cursor` marking how many entries have
been delivered to the group, and the pending-entries list (delivered,
not yet acknowledged). -/
structure StreamState where
  entries : List (Nat × Record) := []
  cursor : Nat := 0
  pending : List Nat := []
deriving DecidableEq, Repr

/-- The whole broker: a stream per name, plus the id counter that
assigns fresh message ids on append. -/
structure BrokerState where
  streams : String → StreamState
  nextId : Nat := 0

/-- A broker whose every stream is empty. -/
def emptyBroker : BrokerState :=
  { streams := fun _ => {}, nextId := 0 }

/-- Pointwise update of the stream map. -/
def updStream (f : String → StreamState) (name : String)
    (s : StreamState) : String → StreamState :=
  fun n => if n = name then s else f n

/-- The entries of a stream not yet delivered to the group (what a
`>`-read can return). -/
def availNew (st : BrokerState) (name : String) : List (Nat × Record) :=
  (st.streams name).entries.drop (st.streams name).cursor

/-- `XADD name record`: appends with a fresh id, returns the id. -/
def xadd (st : BrokerState) (name : String) (record : Record) :
    Nat × BrokerState :=
  let s := st.streams name
  (st.nextId,
   { streams :=
       updStream st.streams name
         { s with entries := s.entries ++ [(st.nextId, record)] },
     nextId := st.nextId + 1 })

/-- `XREADGROUP group consumer {name: ">"} count=c`: delivers up to `c`
new entries, advancing the group cursor and adding them to the pending
list. -/
def xreadgroup (st : BrokerState) (name : String) (count : Nat) :
    List (Nat × Record) × BrokerState :=
  let s := st.streams name
  let batch := (availNew st name).take count
  (batch,
   { st with
     streams :=
       updStream st.streams name
         { s with
           cursor := s.cursor + batch.length,
           pending := s.pending ++ batch.map Prod.fst } })

/-- `XACK name group id`: removes the id from the pending list; a second
ack of the same id is a no-op. -/
def xack (st : BrokerState) (name : String) (msg_id : Nat) : BrokerState :=
  let s := st.streams name
  { st with
    streams := updStream st.streams name
      { s with pending := s.pending.erase msg_id } }

/-! ### RedisTaskQueue -/

/-- redis_queue.py:46-75: `RedisTaskQueue.enqueue_task(self, task)`.
Looks up the sub-log by the task's priority, serializes, appends; the
broker-assigned message id is returned. `now` stands for
`datetime.utcnow().isoformat()`. -/
def enqueue_task (st : BrokerState) (task : QueuedTask) (now : String) :
    Except PyErr (BrokerState × Nat) := do
  let qname ← priorityQueueName task.priority
  let (msg_id, st1) := xadd st qname (serialize_task task now)
  return (st1, msg_id)

/-- The keyword parameters that the `def` of `enqueue_task`
(redis_queue.py:46) declares besides `task`: there are none. -/
def enqueue_task_kw_params : List String := []

/-- A Python call `queue.enqueue_task(task, kw1=..., kw2=...)`: keywords
not declared by the callee raise `TypeError` before the body runs. -/
def call_enqueue_task (st : BrokerState) (task : QueuedTask)
    (kwargs : List String) (now : String) :
    Except PyErr (BrokerState × Nat) :=
  if kwargs.all (fun k => enqueue_task_kw_params.contains k) then
    enqueue_task st task now
  else
    .error .typeError

/-! ### Connection setup (consumer-group creation) -/

/-- The outcome the redis server gives one `XGROUP CREATE` call: success
or a `RedisError` carrying its message (`BUSYGROUP ...` when the group
already exists). -/
inductive XGroupResult
  | ok
  | redisErr (msg : String)

/-- A log line (level and message tag). -/
inductive LogEvent
  | info (msg : String)
  | warning (msg : String)
  | error (msg : String)
  | exc (msg : String)
deriving DecidableEq, Repr

/-- The arguments of one `xgroup_create` call. -/
structure GroupCreateCall where
  queue : String
  group : String
  start_id : String
  mkstream : Bool
deriving DecidableEq, Repr

/-- Whether `needle` is a prefix of `hay` (on characters). -/
def charsStartWith : List Char → List Char → Bool
  | [], _ => true
  | _ :: _, [] => false
  | a :: as, b :: bs => a = b && charsStartWith as bs

/-- Whether `needle` occurs contiguously inside `hay`. -/
def charsContain (needle : List Char) : List Char → Bool
  | [] => needle.isEmpty
  | c :: cs => charsStartWith needle (c :: cs) || charsContain needle cs

/-- Python `"BUSYGROUP" in str(e)`. -/
def mentionsBusygroup (msg : String) : Bool :=
  charsContain "BUSYGROUP".data msg.data

/-- What `connect` returns to its caller. -/
structure ConnectResult where
  attempts : List GroupCreateCall
  created : List String
  logs : List LogEvent
  raised : Option PyErr
deriving Repr

/-- redis_queue.py:24-39: `RedisTaskQueue.connect`. For every priority
sub-log it calls `xgroup_create(queue, group, id="0", mkstream=True)`;
a `RedisError` whose text contains `BUSYGROUP` is swallowed silently,
any other `RedisError` is logged — and also swallowed: the `except`
block never re-raises, so nothing is surfaced to the caller. -/
def connect (env : String → XGroupResult) : ConnectResult :=
  let step := fun (acc : ConnectResult) (p : TaskPriorityEnum) =>
    let qname := priority_queues p
    let call : GroupCreateCall :=
      { queue := qname, group := consumer_group, start_id := "0",
        mkstream := true }
    match env qname with
    | .ok =>
        { acc with attempts := acc.attempts ++ [call],
                   created := acc.created ++ [qname] }
    | .redisErr msg =>
        if mentionsBusygroup msg then
          { acc with attempts := acc.attempts ++ [call] }
        else
          { acc with attempts := acc.attempts ++ [call],
                     logs := acc.logs ++
                       [.error "Failed to create consumer group"] }
  [TaskPriorityEnum.high, .normal, .low].foldl step
    { attempts := [], created := [], logs := [], raised := none }

/-! ### TaskConsumer -/

/-- What one invocation of the injected processing callback does:
returns a boolean, or raises (a fault). -/
inductive CbResult
  | ok (success : Bool)
  | fault
deriving DecidableEq, Repr

/-- redis_queue.py:93-109: `TaskConsumer.__init__`. The queue state is
passed explicitly to each operation; `callback := none` models
constructing the consumer with `callback=None`. -/
structure TaskConsumer where
  worker_id : String
  callback : Option (QueuedTask → CbResult)
  batch_size : Nat := 1
  max_retries : Int := 3
  dead_letter_queue : Option String := none
  running : Bool := false

/-- redis_queue.py:183-200: `TaskConsumer._handle_failure`. Increments
`retry_count`; if it stays within the CONSUMER'S `self.max_retries`
the code calls `enqueue_task(task_data, delay=2**retry_count)` — a
keyword `enqueue_task` does not declare, so the call raises `TypeError`
(propagated; the `xack` after it never runs). Past the bound, with a
dead-letter queue configured, the code calls
`enqueue_task(task_data, queue_name=...)` — the same `TypeError`; with
no dead-letter queue it just acknowledges (the task is dropped). -/
def handle_failure (c : TaskConsumer) (st : BrokerState)
    (task : QueuedTask) (stream : String) (msg_id : Nat) (now : String) :
    Except PyErr (BrokerState × List LogEvent) :=
  let task1 := { task with retry_count := task.retry_count + 1 }
  if task1.retry_count ≤ c.max_retries then
    match call_enqueue_task st task1 ["delay"] now with
    | .error e => .error e
    | .ok (st1, _) =>
        .ok (xack st1 stream msg_id, [.warning "Retrying task"])
  else
    match c.dead_letter_queue with
    | some _ =>
        match call_enqueue_task st task1 ["queue_name"] now with
        | .error e => .error e
        | .ok (st1, _) =>
            .ok (xack st1 stream msg_id,
                 [.error "Task moved to dead-letter queue"])
    | none => .ok (xack st stream msg_id, [])

/-- redis_queue.py:155-181: `TaskConsumer._handle_message`. The whole
body is wrapped in `try/except Exception`: a deserialization error, a
callback fault, or a `TypeError` escaping `_handle_failure` is logged
and leaves the broker state untouched (in particular, the message is
not acknowledged). The stray `pdb.set_trace()` is a no-op on queue
state. Calling a `None` callback would itself raise and be caught
(unreachable from `start_consuming`, which rejects `None` up front). -/
def handle_message (c : TaskConsumer) (st : BrokerState)
    (stream : String) (msg_id : Nat) (fields : Record) (now : String) :
    BrokerState × List LogEvent :=
  match deserialize_task c.max_retries fields with
  | .error _ => (st, [.exc "Error processing message"])
  | .ok task =>
    match c.callback with
    | none => (st, [.info "Processing task", .exc "Error processing message"])
    | some cb =>
      match cb task with
      | .fault => (st, [.info "Processing task", .exc "Error processing message"])
      | .ok true =>
          (xack st stream msg_id,
           [.info "Processing task", .info "Task completed successfully"])
      | .ok false =>
          match handle_failure c st task stream msg_id now with
          | .error _ =>
              (st, [.info "Processing task", .exc "Error processing message"])
          | .ok (st1, logs) => (st1, .info "Processing task" :: logs)

/-- One read event of the polling loop: the tier read, the number of
available (new) entries in each sub-log at the moment of the read, and
the ids of the batch returned. -/
structure PollEvent where
  tier : TaskPriorityEnum
  highAvail : Nat
  normalAvail : Nat
  lowAvail : Nat
  batch : List Nat
deriving DecidableEq, Repr

/-- The availability snapshot taken when a read is issued. -/
def mkPollEvent (st : BrokerState) (p : TaskPriorityEnum)
    (batch : List (Nat × Record)) : PollEvent :=
  { tier := p,
    highAvail := (availNew st (priority_queues .high)).length,
    normalAvail := (availNew st (priority_queues .normal)).length,
    lowAvail := (availNew st (priority_queues .low)).length,
    batch := batch.map Prod.fst }

/-- Dispatch of one batch: redis_queue.py:137-142 gathers the
`_handle_message` coroutines and awaits them all; the messages are
distinct entries, modelled as sequential resolution. -/
def dispatchBatch (c : TaskConsumer) (st : BrokerState) (stream : String)
    (batch : List (Nat × Record)) (now : String) : BrokerState :=
  batch.foldl
    (fun s m => (handle_message c s stream m.1 m.2 now).1) st

/-- redis_queue.py:118-143, one pass of the `while self.running` body:
read HIGH (up to `batch_size`); on a non-empty batch dispatch it and
break (the next cycle starts again from HIGH); otherwise fall to
NORMAL, then LOW, identically. -/
def runCycle (c : TaskConsumer) (st : BrokerState) (now : String) :
    BrokerState × List PollEvent :=
  let qh := priority_queues .high
  let qn := priority_queues .normal
  let ql := priority_queues .low
  let bh := (xreadgroup st qh c.batch_size).1
  let st1 := (xreadgroup st qh c.batch_size).2
  let evh := mkPollEvent st .high bh
  if bh.isEmpty then
    let bn := (xreadgroup st1 qn c.batch_size).1
    let st2 := (xreadgroup st1 qn c.batch_size).2
    let evn := mkPollEvent st1 .normal bn
    if bn.isEmpty then
      let bl := (xreadgroup st2 ql c.batch_size).1
      let st3 := (xreadgroup st2 ql c.batch_size).2
      let evl := mkPollEvent st2 .low bl
      if bl.isEmpty then (st3, [evh, evn, evl])
      else (dispatchBatch c st3 ql bl now, [evh, evn, evl])
    else (dispatchBatch c st2 qn bn now, [evh, evn])
  else (dispatchBatch c st1 qh bh now, [evh])

/-- `fuel` passes of the polling loop (the real loop runs until
`stop_consuming` flips the flag). -/
def runCycles (c : TaskConsumer) (st : BrokerState) (now : String) :
    Nat → BrokerState × List PollEvent
  | 0 => (st, [])
  | n + 1 =>
    let r := runCycle c st now
    let rs := runCycles c r.1 now n
    (rs.1, r.2 ++ rs.2)

/-- What `start_consuming` produces: the raised error if any, the
consumer (with its `running` flag), the broker state, and the trace of
group reads issued. -/
structure RunResult where
  raised : Option PyErr
  consumer : TaskConsumer
  broker : BrokerState
  trace : List PollEvent

/-- redis_queue.py:111-148: `TaskConsumer.start_consuming`. With no
callback (`not self.callback`) it raises `ValueError` before setting
`self.running = True` and before any group read; otherwise it sets the
flag and polls (`fuel` bounds the unbounded loop). -/
def start_consuming (c : TaskConsumer) (st : BrokerState) (now : String)
    (fuel : Nat) : RunResult :=
  match c.callback with
  | none => { raised := some .valueError, consumer := c, broker := st,
              trace := [] }
  | some _ =>
    let c1 := { c with running := true }
    let (st1, tr) := runCycles c1 st now fuel
    { raised := none, consumer := c1, broker := st1, trace := tr }

/-! ### Concrete scenario states used by the claim theorems -/

/-- A broker whose stream `qname` holds one entry (id 0) that has been
delivered to the group and not yet acknowledged (pending), as right
after the consumer's group-read. -/
def deliveredBroker (qname : String) (record : Record) : BrokerState :=
  { streams :=
      updStream (fun _ => {}) qname
        { entries := [(0, record)], cursor := 1, pending := [0] },
    nextId := 1 }

/-- A consumer as built by worker.py:28-35: batch_size 1, max_retries 3,
dead-letter queue configured; its callback reports boolean failure. -/
def failConsumer : TaskConsumer :=
  { worker_id := "worker-0", callback := some (fun _ => .ok false),
    batch_size := 1, max_retries := 3,
    dead_letter_queue := some "dead_letter_tasks" }

/-- Spec scenario A task: first attempt, retry budget left. -/
def scenA_task : QueuedTask :=
  { task_id := 42, user_id := 1, task_type := "general",
    priority := "high", input_text := "hello", user_context := [],
    retry_count := 0, max_retries := 3 }

/-- The record scenario A's task was delivered with. -/
def scenA_rec : Record := serialize_task scenA_task "t0"

/-- Broker right after scenario A's message was delivered. -/
def scenA_state : BrokerState := deliveredBroker "tasks:high" scenA_rec

/-- Spec scenario B task: retries exhausted, dead-letter expected. -/
def scenB_task : QueuedTask :=
  { task_id := 7, user_id := 1, task_type := "general",
    priority := "normal", input_text := "x", user_context := [],
    retry_count := 3, max_retries := 3 }

/-- The record scenario B's task was delivered with. -/
def scenB_rec : Record := serialize_task scenB_task "t0"

/-- Broker right after scenario B's message was delivered. -/
def scenB_state : BrokerState := deliveredBroker "tasks:normal" scenB_rec

example :
    deserialize_task 3 (serialize_task
      { task_id := 1, user_id := 2, task_type := "t", priority := "high",
        input_text := "x", user_context := [("a", "b")],
        accessibility_mode := true, webhook_url := some "u" } "ts")
    = .ok
      { task_id := 1, user_id := 2, task_type := "t", priority := "high",
        input_text := "x", user_context := [("a", "b")],
        accessibility_mode := true, webhook_url := some "u" } := by
  decide

/-! ### Claim theorems -/

/-- C1: the claim says that on boolean failure with retry budget left,
the resolution routine enqueues a retry copy with a 2^retry_count delay
and then acknowledges the original. The code instead calls
`enqueue_task(task_data, delay=...)`, a keyword the method does not
accept, so `TypeError` is raised, caught, and logged: no envelope is
enqueued anywhere and the original message stays pending (un-acked). -/
theorem c1_retry_path_raises_typeerror :
    handle_message failConsumer scenA_state "tasks:high" 0 scenA_rec "t1"
      = (scenA_state,
         [.info "Processing task", .exc "Error processing message"]) ∧
    handle_failure failConsumer scenA_state scenA_task "tasks:high" 0 "t1"
      = .error .typeError ∧
    ((scenA_state.streams "tasks:high").pending = [0] ∧
     (scenA_state.streams "tasks:high").entries.length = 1 ∧
     (scenA_state.streams "dead_letter_tasks").entries = []) := by
  exact ⟨rfl, rfl, rfl, rfl, rfl⟩

/-- C2: the claim says that on boolean failure with retries exhausted,
the envelope is enqueued to the dead-letter sink exactly once and the
original is acknowledged. The code calls
`enqueue_task(task_data, queue_name=...)`, a keyword the method does
not accept, so `TypeError` is raised, caught, and logged: the
dead-letter stream receives nothing and the original stays pending
(un-acked). (Only the no-sink variant — drop and ack — works.) -/
theorem c2_dead_letter_path_raises_typeerror :
    handle_message failConsumer scenB_state "tasks:normal" 0 scenB_rec "t1"
      = (scenB_state,
         [.info "Processing task", .exc "Error processing message"]) ∧
    handle_failure failConsumer scenB_state scenB_task "tasks:normal" 0 "t1"
      = .error .typeError ∧
    ((scenB_state.streams "dead_letter_tasks").entries = [] ∧
     (scenB_state.streams "tasks:normal").pending = [0]) := by
  exact ⟨rfl, rfl, rfl, rfl⟩

/-- Task used for the C4 counter-run: incremented count exceeds its own
(and the consumer's) max_retries, so the claim expects dead-lettering. -/
def c4_task : QueuedTask :=
  { task_id := 11, user_id := 2, task_type := "general",
    priority := "low", input_text := "y", user_context := [],
    retry_count := 3, max_retries := 3 }

/-- The record the C4 task was delivered with. -/
def c4_rec : Record := serialize_task c4_task "t0"

/-- Broker right after the C4 message was delivered. -/
def c4_state : BrokerState := deliveredBroker "tasks:low" c4_rec

/-- C4: the claim's invariant requires an envelope whose incremented
retry_count exceeds its max_retries to be dead-lettered. Resolving such
an envelope instead raises `TypeError` (`queue_name` is not a parameter
of `enqueue_task`): the dead-letter stream stays empty, the broker state
is unchanged, and the delivery stays pending — the envelope is neither
dead-lettered nor acknowledged. -/
theorem c4_exhausted_envelope_not_dead_lettered :
    handle_message failConsumer c4_state "tasks:low" 0 c4_rec "t1"
      = (c4_state,
         [.info "Processing task", .exc "Error processing message"]) ∧
    ((c4_state.streams "dead_letter_tasks").entries = [] ∧
     (c4_state.streams "tasks:low").pending = [0] ∧
     (c4_state.streams "tasks:low").entries.length = 1) := by
  exact ⟨rfl, rfl, rfl, rfl⟩

/-- Task used for the C5 counter-run, part a: retry budget left by its
own field, so the claim expects a retry re-enqueue. -/
def c5_task : QueuedTask :=
  { task_id := 5, user_id := 1, task_type := "general",
    priority := "high", input_text := "z", user_context := [],
    retry_count := 0, max_retries := 3 }

/-- The record the C5 task was delivered with. -/
def c5_rec : Record := serialize_task c5_task "t0"

/-- Broker right after the C5 message was delivered. -/
def c5_state : BrokerState := deliveredBroker "tasks:high" c5_rec

/-- Task used for the C5 counter-run, part b: its own max_retries is 0,
but the consumer's setting is 3. -/
def c5_task_ownmax0 : QueuedTask :=
  { task_id := 6, user_id := 1, task_type := "general",
    priority := "high", input_text := "w", user_context := [],
    retry_count := 0, max_retries := 0 }

/-- A consumer with max_retries 3 and no dead-letter queue. -/
def noSinkConsumer : TaskConsumer :=
  { worker_id := "worker-1", callback := some (fun _ => .ok false),
    batch_size := 1, max_retries := 3, dead_letter_queue := none }

/-- C5: the claim says an envelope with retry_count + 1 ≤ its own
max_retries is re-enqueued for retry, independently of the consumer's
setting. (a) For such an envelope nothing is ever re-enqueued: the
retry call raises `TypeError` and the broker state is unchanged.
(b) The branch itself is decided by the CONSUMER'S `self.max_retries`,
not the envelope's field: for an envelope with its own max_retries 0
(incremented count 1 > 0) under a consumer with max_retries 3 and no
dead-letter queue, `_handle_failure` takes the retry branch and raises
`TypeError` — deciding by the envelope's field would have taken the
else branch and returned normally after acknowledging. -/
theorem c5_retry_decision_not_by_envelope_field :
    handle_message failConsumer c5_state "tasks:high" 0 c5_rec "t1"
      = (c5_state,
         [.info "Processing task", .exc "Error processing message"]) ∧
    (c5_state.streams "tasks:high").entries.length = 1 ∧
    handle_failure noSinkConsumer c5_state c5_task_ownmax0 "tasks:high" 0 "t1"
      = .error .typeError := by
  exact ⟨rfl, rfl, rfl⟩

/-- C6: `_handle_message` wraps everything in `try/except`: when the
record cannot be decoded into a task, or the callback raises a fault
instead of returning a boolean, the error is logged only — the broker
state is returned untouched, so the message is not acknowledged (it
stays in the pending set) and no retry or dead-letter envelope is
enqueued anywhere. -/
theorem c6_prefailure_errors_leave_message_pending
    (c : TaskConsumer) (st : BrokerState) (stream : String)
    (msg_id : Nat) (fields : Record) (now : String) :
    (∀ e, deserialize_task c.max_retries fields = .error e →
       handle_message c st stream msg_id fields now
         = (st, [.exc "Error processing message"])) ∧
    (∀ cb task, c.callback = some cb →
       deserialize_task c.max_retries fields = .ok task →
       cb task = .fault →
       handle_message c st stream msg_id fields now
         = (st, [.info "Processing task",
                 .exc "Error processing message"])) := by
  constructor
  · intro e he
    simp [handle_message, he]
  · intro cb task hcb htask hf
    simp [handle_message, hcb, htask, hf]

/-- A consumer whose callback always raises a fault. -/
def faultConsumer : TaskConsumer :=
  { worker_id := "worker-2", callback := some (fun _ => .fault) }

/-- Witness for C6: the empty record fails decoding (KeyError on
`task_id`) and the message delivered as scenario A raises a callback
fault; in both runs the broker state comes back unchanged. -/
theorem c6_witness :
    handle_message faultConsumer scenA_state "tasks:high" 0 [] "t1"
      = (scenA_state, [.exc "Error processing message"]) ∧
    handle_message faultConsumer scenA_state "tasks:high" 0 scenA_rec "t1"
      = (scenA_state,
         [.info "Processing task", .exc "Error processing message"]) := by
  refine ⟨(c6_prefailure_errors_leave_message_pending
            faultConsumer scenA_state "tasks:high" 0 [] "t1").1
            .keyError rfl,
          (c6_prefailure_errors_leave_message_pending
            faultConsumer scenA_state "tasks:high" 0 scenA_rec "t1").2
            (fun _ => .fault)
            { scenA_task with webhook_url := some "" } rfl rfl rfl⟩

/-- C10: `start_consuming` on a consumer constructed with
`callback=None` raises `ValueError` before the polling loop: the
consumer (its running flag included) and the broker are unchanged and
no group read is issued (empty trace). -/
theorem c10_no_callback_raises_valueerror
    (c : TaskConsumer) (st : BrokerState) (now : String) (fuel : Nat)
    (h : c.callback = none) :
    start_consuming c st now fuel
      = { raised := some .valueError, consumer := c, broker := st,
          trace := [] } := by
  simp [start_consuming, h]

/-- A consumer constructed without a callback. -/
def c10_consumer : TaskConsumer :=
  { worker_id := "worker-0", callback := none }

/-- Witness for C10 at a concrete callback-less consumer: the error is
raised, the running flag stays false, and no read happens. -/
theorem c10_witness :
    c10_consumer.callback = none ∧
    c10_consumer.running = false ∧
    start_consuming c10_consumer emptyBroker "t0" 3
      = { raised := some .valueError, consumer := c10_consumer,
          broker := emptyBroker, trace := [] } :=
  ⟨rfl, rfl,
   c10_no_callback_raises_valueerror c10_consumer emptyBroker "t0" 3 rfl⟩

/-- An environment in which creating the HIGH group fails with a
non-BUSYGROUP redis error and the other two creations succeed. -/
def c7_badEnv : String → XGroupResult :=
  fun q => if q = "tasks:high" then .redisErr "ERR disk full" else .ok

/-- Counterexample for C7: a group-creation error other than
group-already-exists is logged but NOT surfaced — `connect` returns
normally (raises nothing) after logging it. -/
theorem c7_counterexample :
    (connect c7_badEnv).raised = none ∧
    (connect c7_badEnv).logs = [.error "Failed to create consumer group"] ∧
    (connect c7_badEnv).created = ["tasks:normal", "tasks:low"] := by
  exact ⟨rfl, rfl, rfl⟩

/-- C7 amended: connection setup attempts, for each of the three
priority sub-logs, to create the named consumer group starting at the
beginning of the log (`id="0"`, `mkstream=True`); a BUSYGROUP
(group-already-exists) error is swallowed silently; any other creation
error is logged — but it too is swallowed: `connect` never surfaces an
error to the caller. -/
theorem c7_groups_created_errors_swallowed (env : String → XGroupResult) :
    (connect env).attempts =
      [{ queue := "tasks:high", group := consumer_group,
         start_id := "0", mkstream := true },
       { queue := "tasks:normal", group := consumer_group,
         start_id := "0", mkstream := true },
       { queue := "tasks:low", group := consumer_group,
         start_id := "0", mkstream := true }] ∧
    (connect env).raised = none ∧
    (connect env).logs =
      (([priority_queues .high, priority_queues .normal,
         priority_queues .low].filter
          (fun q => match env q with
            | .ok => false
            | .redisErr m => ! mentionsBusygroup m)).map
        (fun _ => LogEvent.error "Failed to create consumer group")) := by
  rcases h1 : env "tasks:high" with _ | m1 <;>
    rcases h2 : env "tasks:normal" with _ | m2 <;>
      rcases h3 : env "tasks:low" with _ | m3 <;>
        simp [connect, List.filter, priority_queues, h1, h2, h3] <;>
          split_ifs <;> simp_all

/-- Decoding `str(bool)` back through `.lower() == "true"` recovers the
boolean. -/
theorem pyLowerEqTrue_pyStrBool (b : Bool) :
    pyLowerEqTrue (PyVal.s (pyStrBool b)) = .ok b := by
  cases b <;> decide

/-- Task used for the C8 counterexample: its webhook_url is absent. -/
def c8_task : QueuedTask :=
  { task_id := 3, user_id := 4, task_type := "a", priority := "low",
    input_text := "i", user_context := [("k", "v")],
    accessibility_mode := false, webhook_url := none,
    retry_count := 1, max_retries := 3 }

/-- Counterexample for C8: the codec round-trip is not the identity on
an envelope whose webhook_url is absent — enqueue writes the empty
string and `_deserialize_task` keeps it as a (present) empty string
rather than restoring the absence. -/
theorem c8_counterexample :
    deserialize_task 3 (serialize_task c8_task "ts") ≠ .ok c8_task ∧
    deserialize_task 3 (serialize_task c8_task "ts")
      = .ok { c8_task with webhook_url := some "" } := by
  decide

/-- C8 amended: decoding the record produced by enqueue restores every
field except webhook_url, which comes back as the string that was
written (`task.webhook_url or ""`) — so the round-trip is the identity
exactly on envelopes whose webhook_url is present, while an absent one
becomes the (present) empty string. -/
theorem c8_roundtrip (selfMax : Int) (task : QueuedTask) (now : String) :
    deserialize_task selfMax (serialize_task task now)
      = .ok { task with webhook_url := some (pyOr task.webhook_url "") } ∧
    (∀ s, task.webhook_url = some s →
       deserialize_task selfMax (serialize_task task now) = .ok task) := by
  have h1 : deserialize_task selfMax (serialize_task task now)
      = .ok { task with webhook_url := some (pyOr task.webhook_url "") } := by
    cases task with
    | mk tid uid ttype prio itext uctx amode whk rc mr =>
      simp [deserialize_task, serialize_task, getField, lookupField,
            List.lookup, pyInt, pyAsStr, pyJsonLoads,
            pyLowerEqTrue_pyStrBool, bind, Except.bind, pure, Except.pure]
  refine ⟨h1, ?_⟩
  intro s hs
  rw [h1]
  cases task with
  | mk tid uid ttype prio itext uctx amode whk rc mr =>
    simp only at hs
    subst hs
    simp [pyOr]
    exact fun h => h.symm

/-- Witness for C8 at a concrete envelope with a present webhook_url:
the round-trip is the identity there. -/
theorem c8_witness :
    deserialize_task 3 (serialize_task
      { task_id := 1, user_id := 2, task_type := "t", priority := "high",
        input_text := "x", user_context := [("a", "b")],
        accessibility_mode := true, webhook_url := some "u",
        retry_count := 0, max_retries := 3 } "ts")
    = .ok
      { task_id := 1, user_id := 2, task_type := "t", priority := "high",
        input_text := "x", user_context := [("a", "b")],
        accessibility_mode := true, webhook_url := some "u",
        retry_count := 0, max_retries := 3 } :=
  (c8_roundtrip 3
    { task_id := 1, user_id := 2, task_type := "t", priority := "high",
      input_text := "x", user_context := [("a", "b")],
      accessibility_mode := true, webhook_url := some "u",
      retry_count := 0, max_retries := 3 } "ts").2 "u" rfl

/-- Task used for the C9 counterexample: accessibility_mode is set. -/
def c9_task : QueuedTask :=
  { task_id := 8, user_id := 9, task_type := "b", priority := "normal",
    input_text := "m", user_context := [], accessibility_mode := true,
    webhook_url := none, retry_count := 0, max_retries := 3 }

/-- Counterexample for C9: the record serializes accessibility_mode via
Python `str(bool)`, producing the capitalized `"True"` — not the
literal `"true"` or `"false"` the claim states. -/
theorem c9_counterexample :
    lookupField (serialize_task c9_task "ts") "accessibility_mode"
      = some (.s "True") ∧
    "True" ≠ "true" ∧ "True" ≠ "false" := by
  decide

/-- C9 amended: enqueue writes a record with exactly the eleven claimed
fields in order, with user_context JSON-encoded, accessibility_mode as
Python `str(bool)` (`"True"`/`"False"`, capitalized), webhook_url as
the empty string when absent, and queued_at the
`datetime.utcnow().isoformat()` timestamp. -/
theorem c9_record_shape (task : QueuedTask) (now : String) :
    (serialize_task task now).map Prod.fst
      = ["task_id", "user_id", "task_type", "priority", "input_text",
         "user_context", "accessibility_mode", "webhook_url",
         "retry_count", "max_retries", "queued_at"] ∧
    lookupField (serialize_task task now) "user_context"
      = some (.j task.user_context) ∧
    lookupField (serialize_task task now) "accessibility_mode"
      = some (.s (if task.accessibility_mode then "True" else "False")) ∧
    lookupField (serialize_task task now) "webhook_url"
      = some (.s (pyOr task.webhook_url "")) ∧
    lookupField (serialize_task task now) "queued_at" = some (.s now) := by
  exact ⟨rfl, rfl, rfl, rfl, rfl⟩

/-- The batch a group read returns is the prefix of the available
entries of that stream. -/
theorem xreadgroup_fst (st : BrokerState) (nm : String) (cnt : Nat) :
    (xreadgroup st nm cnt).1 = (availNew st nm).take cnt := rfl

/-- A group read that returns no entries leaves every stream's
available-entry list as it was. -/
theorem availNew_xreadgroup_empty (st : BrokerState) (name q : String)
    (count : Nat) (h : (xreadgroup st name count).1 = []) :
    availNew (xreadgroup st name count).2 q = availNew st q := by
  rw [xreadgroup_fst] at h
  by_cases hq : q = name
  · subst hq
    have h0 : count ⊓ ((st.streams q).entries.length - (st.streams q).cursor)
        = 0 := by
      have hlen := congrArg List.length h
      simpa [availNew] using hlen
    simp [xreadgroup, availNew, updStream, h0]
  · simp [xreadgroup, availNew, updStream, hq]

/-- Per-cycle strict precedence: any entry read from NORMAL was read
with no HIGH entry available, and any entry read from LOW with neither
HIGH nor NORMAL entries available. -/
theorem runCycle_reads (c : TaskConsumer) (st : BrokerState)
    (now : String) :
    ∀ ev ∈ (runCycle c st now).2,
      (ev.tier = .normal → ev.batch ≠ [] → ev.highAvail = 0) ∧
      (ev.tier = .low → ev.batch ≠ [] →
        ev.highAvail = 0 ∧ ev.normalAvail = 0) := by
  intro ev hev
  simp only [runCycle] at hev
  by_cases h1 :
      ((xreadgroup st (priority_queues .high) c.batch_size).1).isEmpty = true
  case neg =>
    rw [if_neg h1] at hev
    have hev1 : ev = mkPollEvent st .high
        (xreadgroup st (priority_queues .high) c.batch_size).1 := by
      simpa using hev
    subst hev1
    constructor <;> intro ht <;> simp [mkPollEvent] at ht
  case pos =>
    rw [if_pos h1] at hev
    have hbh : (xreadgroup st (priority_queues .high) c.batch_size).1 = [] :=
      List.isEmpty_iff.mp h1
    have hF1 : ∀ q, availNew
        (xreadgroup st (priority_queues .high) c.batch_size).2 q
        = availNew st q :=
      fun q => availNew_xreadgroup_empty st _ q _ hbh
    have hhaOf : c.batch_size ≠ 0 →
        availNew st (priority_queues .high) = [] := by
      intro hbs
      have h' : (availNew st (priority_queues .high)).take c.batch_size
          = [] := by
        rw [← xreadgroup_fst]; exact hbh
      rcases List.take_eq_nil_iff.mp h' with h0 | hnil
      · exact absurd h0 hbs
      · exact hnil
    by_cases h2 :
        ((xreadgroup (xreadgroup st (priority_queues .high) c.batch_size).2
          (priority_queues .normal) c.batch_size).1).isEmpty = true
    case neg =>
      rw [if_neg h2] at hev
      have hev2 : ev = mkPollEvent st .high
            (xreadgroup st (priority_queues .high) c.batch_size).1 ∨
          ev = mkPollEvent
            (xreadgroup st (priority_queues .high) c.batch_size).2 .normal
            (xreadgroup (xreadgroup st (priority_queues .high) c.batch_size).2
              (priority_queues .normal) c.batch_size).1 := by
        simpa using hev
      rcases hev2 with rfl | rfl
      · constructor <;> intro ht <;> simp [mkPollEvent] at ht
      · constructor
        · intro _ hb
          have hbs : c.batch_size ≠ 0 := by
            intro h0
            apply hb
            simp [mkPollEvent, xreadgroup_fst, h0]
          simp [mkPollEvent, hF1, hhaOf hbs]
        · intro ht; simp [mkPollEvent] at ht
    case pos =>
      rw [if_pos h2] at hev
      have hbn : (xreadgroup
          (xreadgroup st (priority_queues .high) c.batch_size).2
          (priority_queues .normal) c.batch_size).1 = [] :=
        List.isEmpty_iff.mp h2
      have hF2 : ∀ q, availNew
          (xreadgroup (xreadgroup st (priority_queues .high) c.batch_size).2
            (priority_queues .normal) c.batch_size).2 q
          = availNew
              (xreadgroup st (priority_queues .high) c.batch_size).2 q :=
        fun q => availNew_xreadgroup_empty _ _ q _ hbn
      have hnaOf : c.batch_size ≠ 0 →
          availNew (xreadgroup st (priority_queues .high) c.batch_size).2
            (priority_queues .normal) = [] := by
        intro hbs
        have h' : (availNew
            (xreadgroup st (priority_queues .high) c.batch_size).2
            (priority_queues .normal)).take c.batch_size = [] := by
          rw [← xreadgroup_fst]; exact hbn
        rcases List.take_eq_nil_iff.mp h' with h0 | hnil
        · exact absurd h0 hbs
        · exact hnil
      have hev3 : ev = mkPollEvent st .high
            (xreadgroup st (priority_queues .high) c.batch_size).1 ∨
          ev = mkPollEvent
            (xreadgroup st (priority_queues .high) c.batch_size).2 .normal
            (xreadgroup (xreadgroup st (priority_queues .high) c.batch_size).2
              (priority_queues .normal) c.batch_size).1 ∨
          ev = mkPollEvent
            (xreadgroup (xreadgroup st (priority_queues .high) c.batch_size).2
              (priority_queues .normal) c.batch_size).2 .low
            (xreadgroup
              (xreadgroup
                (xreadgroup st (priority_queues .high) c.batch_size).2
                (priority_queues .normal) c.batch_size).2
              (priority_queues .low) c.batch_size).1 := by
        by_cases h3 : ((xreadgroup
            (xreadgroup (xreadgroup st (priority_queues .high) c.batch_size).2
              (priority_queues .normal) c.batch_size).2
            (priority_queues .low) c.batch_size).1).isEmpty = true
        · rw [if_pos h3] at hev; simpa using hev
        · rw [if_neg h3] at hev; simpa using hev
      rcases hev3 with rfl | rfl | rfl
      · constructor <;> intro ht <;> simp [mkPollEvent] at ht
      · constructor
        · intro _ hb
          exfalso
          apply hb
          simp [mkPollEvent, hbn]
        · intro ht; simp [mkPollEvent] at ht
      · refine ⟨fun ht => by simp [mkPollEvent] at ht, fun _ hb => ?_⟩
        have hbs : c.batch_size ≠ 0 := by
          intro h0
          apply hb
          simp [mkPollEvent, xreadgroup_fst, h0]
        constructor
        · simp [mkPollEvent, hF2, hF1, hhaOf hbs]
        · simp [mkPollEvent, hF2, hnaOf hbs]

/-- Strict precedence lifted to any number of polling cycles. -/
theorem runCycles_reads (c : TaskConsumer) (now : String) :
    ∀ n, ∀ st : BrokerState, ∀ ev ∈ (runCycles c st now n).2,
      (ev.tier = .normal → ev.batch ≠ [] → ev.highAvail = 0) ∧
      (ev.tier = .low → ev.batch ≠ [] →
        ev.highAvail = 0 ∧ ev.normalAvail = 0) := by
  intro n
  induction n with
  | zero =>
    intro st ev hev
    simp [runCycles] at hev
  | succ k ih =>
    intro st ev hev
    simp only [runCycles] at hev
    rw [List.mem_append] at hev
    rcases hev with h | h
    · exact runCycle_reads c st now ev h
    · exact ih _ ev h

/-- C3: each polling cycle visits the tiers in the fixed order HIGH,
NORMAL, LOW (the trace of one cycle is a prefix of that order); a read
that returns a non-empty batch ends its cycle (the loop breaks and the
next cycle restarts from HIGH); and over any number of cycles, an entry
is read from NORMAL only when no HIGH entry is available at that read,
and from LOW only when neither a HIGH nor a NORMAL entry is
available. -/
theorem c3_strict_priority_polling (c : TaskConsumer) (st : BrokerState)
    (now : String) :
    ((runCycle c st now).2.map PollEvent.tier = [.high] ∨
     (runCycle c st now).2.map PollEvent.tier = [.high, .normal] ∨
     (runCycle c st now).2.map PollEvent.tier = [.high, .normal, .low]) ∧
    (∀ ev ∈ (runCycle c st now).2, ev.batch ≠ [] →
       (runCycle c st now).2.getLast? = some ev) ∧
    (∀ n, ∀ ev ∈ (runCycles c st now n).2,
       (ev.tier = .normal → ev.batch ≠ [] → ev.highAvail = 0) ∧
       (ev.tier = .low → ev.batch ≠ [] →
         ev.highAvail = 0 ∧ ev.normalAvail = 0)) := by
  refine ⟨?_, ?_, fun n => runCycles_reads c now n st⟩
  · simp only [runCycle]
    by_cases h1 :
        ((xreadgroup st (priority_queues .high) c.batch_size).1).isEmpty = true
    · rw [if_pos h1]
      by_cases h2 :
          ((xreadgroup (xreadgroup st (priority_queues .high) c.batch_size).2
            (priority_queues .normal) c.batch_size).1).isEmpty = true
      · rw [if_pos h2]
        by_cases h3 : ((xreadgroup
            (xreadgroup (xreadgroup st (priority_queues .high) c.batch_size).2
              (priority_queues .normal) c.batch_size).2
            (priority_queues .low) c.batch_size).1).isEmpty = true
        · rw [if_pos h3]; right; right; rfl
        · rw [if_neg h3]; right; right; rfl
      · rw [if_neg h2]; right; left; rfl
    · rw [if_neg h1]; left; rfl
  · intro ev hev hb
    simp only [runCycle] at hev ⊢
    by_cases h1 :
        ((xreadgroup st (priority_queues .high) c.batch_size).1).isEmpty = true
    · rw [if_pos h1] at hev ⊢
      have hbh : (xreadgroup st (priority_queues .high) c.batch_size).1 = [] :=
        List.isEmpty_iff.mp h1
      by_cases h2 :
          ((xreadgroup (xreadgroup st (priority_queues .high) c.batch_size).2
            (priority_queues .normal) c.batch_size).1).isEmpty = true
      · rw [if_pos h2] at hev ⊢
        have hbn : (xreadgroup
            (xreadgroup st (priority_queues .high) c.batch_size).2
            (priority_queues .normal) c.batch_size).1 = [] :=
          List.isEmpty_iff.mp h2
        by_cases h3 : ((xreadgroup
            (xreadgroup (xreadgroup st (priority_queues .high) c.batch_size).2
              (priority_queues .normal) c.batch_size).2
            (priority_queues .low) c.batch_size).1).isEmpty = true
        · rw [if_pos h3] at hev ⊢
          have hbl : (xreadgroup
              (xreadgroup
                (xreadgroup st (priority_queues .high) c.batch_size).2
                (priority_queues .normal) c.batch_size).2
              (priority_queues .low) c.batch_size).1 = [] :=
            List.isEmpty_iff.mp h3
          have hcases := hev
          simp only [List.mem_cons, List.mem_singleton,
            List.not_mem_nil, or_false] at hcases
          rcases hcases with rfl | rfl | rfl
          · exact absurd (by simp [mkPollEvent, hbh]) hb
          · exact absurd (by simp [mkPollEvent, hbn]) hb
          · exact absurd (by simp [mkPollEvent, hbl]) hb
        · rw [if_neg h3] at hev ⊢
          have hcases := hev
          simp only [List.mem_cons, List.mem_singleton,
            List.not_mem_nil, or_false] at hcases
          rcases hcases with rfl | rfl | rfl
          · exact absurd (by simp [mkPollEvent, hbh]) hb
          · exact absurd (by simp [mkPollEvent, hbn]) hb
          · rfl
      · rw [if_neg h2] at hev ⊢
        have hcases := hev
        simp only [List.mem_cons, List.mem_singleton,
          List.not_mem_nil, or_false] at hcases
        rcases hcases with rfl | rfl
        · exact absurd (by simp [mkPollEvent, hbh]) hb
        · rfl
    · rw [if_neg h1] at hev ⊢
      have hcases := hev
      simp only [List.mem_singleton] at hcases
      subst hcases
      rfl

/-- Consumer used to witness C3: its callback succeeds. -/
def c3_consumer : TaskConsumer :=
  { worker_id := "w3", callback := some (fun _ => .ok true),
    batch_size := 1, max_retries := 3 }

/-- Broker used to witness C3: HIGH and LOW empty, NORMAL holding one
undelivered entry. -/
def c3_state : BrokerState :=
  { streams :=
      updStream (fun _ => {}) "tasks:normal"
        { entries := [(0, serialize_task scenB_task "t0")],
          cursor := 0, pending := [] },
    nextId := 1 }

/-- Witness for C3: running one cycle on a broker whose HIGH sub-log is
empty and whose NORMAL sub-log has one entry reads that entry from
NORMAL, and the theorem yields that no HIGH entry was available at that
read. -/
theorem c3_witness :
    (⟨.normal, 0, 1, 0, [0]⟩ : PollEvent)
      ∈ (runCycles c3_consumer c3_state "t1" 1).2 ∧
    (⟨.normal, 0, 1, 0, [0]⟩ : PollEvent).highAvail = 0 := by
  refine ⟨by decide, ?_⟩
  exact ((c3_strict_priority_polling c3_consumer c3_state "t1").2.2 1
    ⟨.normal, 0, 1, 0, [0]⟩ (by decide)).1 rfl (by decide)

/-- An environment in which every group creation reports that the group
already exists. -/
def c7_busyEnv : String → XGroupResult :=
  fun _ => .redisErr "BUSYGROUP Consumer Group name already exists"

/-- Witness for C7 at a concrete environment: when every creation call
reports BUSYGROUP, connect swallows all of them silently and raises
nothing. -/
theorem c7_witness :
    (connect c7_busyEnv).raised = none ∧ (connect c7_busyEnv).logs = [] := by
  refine ⟨(c7_groups_created_errors_swallowed c7_busyEnv).2.1, ?_⟩
  rw [(c7_groups_created_errors_swallowed c7_busyEnv).2.2]
  rfl

/-- Witness for C9 at a concrete envelope: the record's keys are exactly
the eleven claimed fields, in order. -/
theorem c9_witness :
    (serialize_task c9_task "n0").map Prod.fst
      = ["task_id", "user_id", "task_type", "priority", "input_text",
         "user_context", "accessibility_mode", "webhook_url",
         "retry_count", "max_retries", "queued_at"] :=
  (c9_record_shape c9_task "n0").1
